import Mathlib

/-!
Shallow embedding of the nwb-mcp-server module (src/nwb_mcp_server/server.py):
configuration loading, NWB source discovery with memoization, the SQL query
facade, tool registration, and JSON serialization of query results.
External collaborators (the upath glob, the polars SQL engine) are modelled
as explicit function parameters or small state machines, following the
behavior the source code relies on.
-/

deriving instance DecidableEq for Except

namespace NwbMcp

/-- Embedding of the ServerConfig settings record (server.py lines 28-61):
root directory, glob pattern, table allowlist, schema-inference sample size,
and the two boolean feature flags. -/
structure ServerConfig where
  root_dir : String
  glob_pattern : String
  tables : List String
  infer_schema_length : Int
  no_code : Bool
  unattended : Bool
deriving DecidableEq, Repr

/-- Field defaults declared in server.py (lines 37-60). -/
def defaultServerConfig : ServerConfig :=
  { root_dir := "data"
    glob_pattern := "**/*.nwb"
    tables := []
    infer_schema_length := 1
    no_code := false
    unattended := false }

/-- Raw values arriving from the command line or environment, as pydantic
sees them before field validation. -/
inductive PyValue
  | int (n : Int)
  | str (s : String)
  | bool (b : Bool)
  | pynone
deriving DecidableEq, Repr

/-- Validation of the infer_schema_length field. The field is declared as a
plain int with no numeric constraints (server.py lines 49-52), so pydantic
lax-mode int validation applies: any integer is accepted, an exact integer
string is coerced, and any other shape is a validation error. -/
def validate_infer_schema_length : PyValue → Except String Int
  | .int n => .ok n
  | .str s =>
    match s.toInt? with
    | some n => .ok n
    | none => .error "Input should be a valid integer"
  | .bool _ => .error "Input should be a valid integer"
  | .pynone => .error "Input should be a valid integer"

/-- Settings loading for the fields relevant to validation: the module-level
statement config = ServerConfig() (server.py line 63) raises a process-ending
validation error exactly when a field value fails its declared validation;
only infer_schema_length carries a non-trivial raw value here. -/
def server_config_from (root_dir glob_pattern : String) (tables : List String)
    (raw_infer : PyValue) (no_code unattended : Bool) : Except String ServerConfig :=
  match validate_infer_schema_length raw_infer with
  | .error e => .error e
  | .ok n =>
    .ok { root_dir := root_dir
          glob_pattern := glob_pattern
          tables := tables
          infer_schema_length := n
          no_code := no_code
          unattended := unattended }

/-- Embedding of get_nwb_sources before memoization (server.py lines 67-74):
the upath glob listing is an external effect, passed in as the function fs
from root directory and pattern to the list of matching paths. Zero matches
raise a ValueError instead of returning the empty list. -/
def get_nwb_sources (fs : String → String → List String) (cfg : ServerConfig) :
    Except String (List String) :=
  let nwb_paths := fs cfg.root_dir cfg.glob_pattern
  if nwb_paths.isEmpty then
    .error ("No NWB files found in \x27" ++ cfg.root_dir ++
      "\x27 matching pattern \x27" ++ cfg.glob_pattern ++ "\x27")
  else
    .ok nwb_paths

/-- Memoization cell for get_nwb_sources, modelling the functools.cache
decorator (server.py line 66): cached holds the stored result, scanCount
counts how many times the underlying glob actually ran. functools.cache
stores a result only when the call returns normally; a raised exception is
not cached. -/
structure SourceCache where
  cached : Option (List String)
  scanCount : Nat
deriving DecidableEq, Repr

/-- The memoized get_nwb_sources: a cache hit returns the stored list without
consulting the filesystem; a miss runs the glob, raising on zero matches. -/
def get_nwb_sources_cached (fs : String → String → List String) (cfg : ServerConfig)
    (st : SourceCache) : Except String (List String) × SourceCache :=
  match st.cached with
  | some paths => (.ok paths, st)
  | none =>
    match get_nwb_sources fs cfg with
    | .ok paths => (.ok paths, { cached := some paths, scanCount := st.scanCount + 1 })
    | .error e => (.error e, { cached := none, scanCount := st.scanCount + 1 })

/-- Polars data types, as far as the server manipulates them: the scalar
types seen in NWB tables, plus nested list and fixed-width array types. -/
inductive Dtype
  | float64
  | int64
  | str
  | boolean
  | list (inner : Dtype)
  | array (inner : Dtype) (width : Nat)
deriving DecidableEq, Repr

/-- Cell values of a dataframe column. Both list-typed and array-typed values
are sequences; floats are modelled as rationals. -/
inductive Cell
  | null
  | f (v : Rat)
  | i (v : Int)
  | s (v : String)
  | b (v : Bool)
  | seq (vs : List Cell)

/-- A named, typed column holding its cell values. -/
structure Column where
  name : String
  dtype : Dtype
  values : List Cell

/-- A polars DataFrame: the ordered list of its columns. -/
structure DataFrame where
  columns : List Column

/-- Row count of a dataframe; a dataframe with no columns has height 0, so
df.is_empty in the source corresponds to height = 0. -/
def DataFrame.height (df : DataFrame) : Nat :=
  match df.columns with
  | [] => 0
  | c :: _ => c.values.length

/-- Whether a dtype contains a list-of-array shape anywhere. Per the source
comment in _execute_query (server.py lines 200-203), lists of arrays cause
the polars JSON conversion to crash while plain arrays are fine. -/
def Dtype.hasListOfArray : Dtype → Bool
  | .list (.array _ _) => true
  | .list inner => inner.hasListOfArray
  | .array inner _ => inner.hasListOfArray
  | _ => false

/-- JSON rendering of a float cell; the dataframe writer prints whole floats
with a trailing .0. -/
def renderFloat (v : Rat) : String :=
  if v.den = 1 then toString v.num ++ ".0"
  else toString v.num ++ "/" ++ toString v.den

mutual

/-- JSON rendering of one cell value. -/
def Cell.renderJson : Cell → String
  | .null => "null"
  | .f v => renderFloat v
  | .i v => toString v
  | .s v => "\"" ++ v ++ "\""
  | .b true => "true"
  | .b false => "false"
  | .seq vs => "[" ++ Cell.renderJsonSeq vs ++ "]"

/-- Comma-separated rendering of a sequence of cells. -/
def Cell.renderJsonSeq : List Cell → String
  | [] => ""
  | [c] => c.renderJson
  | c :: rest => c.renderJson ++ "," ++ Cell.renderJsonSeq rest

end

/-- The cells of row idx, paired with their column names. -/
def DataFrame.row (df : DataFrame) (idx : Nat) : List (String × Cell) :=
  df.columns.map (fun c => (c.name, c.values.getD idx Cell.null))

/-- JSON rendering of one row as an object of column name to value. -/
def renderRow (r : List (String × Cell)) : String :=
  "\x7b" ++
    String.intercalate "," (r.map (fun p => "\"" ++ p.1 ++ "\":" ++ p.2.renderJson)) ++
  "\x7d"

/-- Row-oriented JSON text for a dataframe: an array with one object per row. -/
def DataFrame.renderRows (df : DataFrame) : String :=
  "[" ++ String.intercalate "," ((List.range df.height).map (fun idx => renderRow (df.row idx))) ++ "]"

/-- Model of df.write_json, from the behavior the source documents: the
conversion crashes when some column dtype contains a list of arrays
(server.py lines 200-203) and otherwise produces the row-oriented JSON. -/
def DataFrame.writeJson (df : DataFrame) : Except String String :=
  if df.columns.any (fun c => c.dtype.hasListOfArray) then
    .error "ComputeError: cannot serialize a list of array values to JSON"
  else
    .ok df.renderRows

/-- Whether a dtype can be cast to Float64: the numeric and boolean scalars
can, strings and nested types cannot. -/
def Dtype.castableToFloat64 : Dtype → Bool
  | .float64 => true
  | .int64 => true
  | .boolean => true
  | _ => false

/-- Whether a dtype can be cast to List(Float64): a list or fixed-width
array whose element type casts to Float64. -/
def Dtype.castableToListFloat64 : Dtype → Bool
  | .list inner => inner.castableToFloat64
  | .array inner _ => inner.castableToFloat64
  | _ => false

/-- Whether a dtype can be cast to List(List(Float64)): a list or array of
elements that cast to List(Float64). A scalar column, a string column, or
any other shape cannot, and the polars cast raises on it. -/
def Dtype.castableToListListFloat64 : Dtype → Bool
  | .list inner => inner.castableToListFloat64
  | .array inner _ => inner.castableToListFloat64
  | _ => false

/-- Value conversion of a scalar cell cast to Float64. -/
def Cell.castToFloat : Cell → Cell
  | .i n => .f n
  | .f v => .f v
  | .b true => .f 1
  | .b false => .f 0
  | c => c

/-- Value conversion of a cell cast to List(Float64). -/
def Cell.castToListFloat : Cell → Cell
  | .seq vs => .seq (vs.map Cell.castToFloat)
  | c => c

/-- Value conversion of a cell cast to List(List(Float64)). -/
def Cell.castToListListFloat : Cell → Cell
  | .seq vs => .seq (vs.map Cell.castToListFloat)
  | c => c

/-- Embedding of the obs_intervals workaround in _execute_query (server.py
lines 199-204): when a column named obs_intervals is present, exactly that
column is cast to List(List(Float64)) and every other column is left as is.
The cast itself is fallible: df.cast raises when the column's dtype cannot
be cast to the target type, for example a string column produced by an AS
obs_intervals alias. -/
def fix_obs_intervals (df : DataFrame) : Except String DataFrame :=
  if (df.columns.map Column.name).contains "obs_intervals" then
    if df.columns.all (fun c => (c.name != "obs_intervals") || c.dtype.castableToListListFloat64) then
      .ok { columns := df.columns.map (fun c =>
          if c.name = "obs_intervals" then
            { name := c.name, dtype := Dtype.list (Dtype.list Dtype.float64),
              values := c.values.map Cell.castToListListFloat }
          else c) }
    else
      .error "InvalidOperationError: cannot cast column obs_intervals to List(List(Float64))"
  else .ok df

/-- The serialization step of _execute_query for a non-empty frame
(server.py lines 199-205): run the obs_intervals cast, then write the frame
as JSON; a failure of either step propagates as the raised error. -/
def serialize_result (df : DataFrame) : Except String String :=
  match fix_obs_intervals df with
  | .error e => .error e
  | .ok df2 => df2.writeJson

/-- Queries dispatched to the SQL engine so far; _execute_query appends one
entry each time it reaches db.execute. -/
structure EngineState where
  dispatched : List String
deriving DecidableEq, Repr

/-- Embedding of _execute_query (server.py lines 187-205). The engine call
db.execute(query, eager=True) is modelled by resultFor; an empty query
raises before any dispatch; an empty result returns the literal text [];
otherwise the obs_intervals workaround runs and the frame is serialized. -/
def execute_query_impl (resultFor : String → Except String DataFrame)
    (query : String) (st : EngineState) : Except String String × EngineState :=
  if query = "" then
    (.error "SQL query cannot be empty", st)
  else
    let st2 : EngineState := { dispatched := st.dispatched ++ [query] }
    match resultFor query with
    | .error e => (.error e, st2)
    | .ok df =>
      if df.height = 0 then (.ok "[]", st2)
      else (serialize_result df, st2)

/-- The SQL context built by lazynwb.get_sql_context: the registered tables,
each with its inferred schema (column name to dtype). -/
def SqlCtx : Type := List (String × List (String × Dtype))

/-- Lookup of a registered table by name. -/
def lookupTable (ctx : SqlCtx) (nm : String) : Option (List (String × Dtype)) :=
  (ctx.find? (fun p => p.1 = nm)).map (fun p => p.2)

/-- Model of running SELECT * FROM nm LIMIT 0 against the SQL context and
reading .schema off the resulting LazyFrame: the polars SQLContext raises
when the named relation is not registered, and otherwise the frame carries
the table schema. -/
def engine_schema_query (ctx : SqlCtx) (nm : String) :
    Except String (List (String × Dtype)) :=
  match lookupTable ctx nm with
  | some sch => .ok sch
  | none => .error ("SQLInterfaceError: relation \x27" ++ nm ++ "\x27 was not found")

/-- Embedding of the get_table_schema tool (server.py lines 147-155): an
empty table name raises before anything touches the SQL context; otherwise
the schema query runs against the context. -/
def get_table_schema (ctx : SqlCtx) (table_name : String) :
    Except String (List (String × Dtype)) :=
  if table_name = "" then .error "Table name cannot be empty"
  else engine_schema_query ctx table_name

/-- Registration metadata of one tool: its name and whether it is enabled. -/
structure ToolDescriptor where
  name : String
  enabled : Bool
deriving DecidableEq, Repr

/-- The tools registered on the server, in registration order (server.py
lines 140-185): the tool decorator enables a tool by default, execute_query
is registered with enabled set to the no_code flag, and preview_table_values
with enabled set to True. -/
def registered_tools (cfg : ServerConfig) : List ToolDescriptor :=
  [ { name := "get_tables", enabled := true }
  , { name := "get_table_schema", enabled := true }
  , { name := "execute_query", enabled := cfg.no_code }
  , { name := "preview_table_values", enabled := true } ]

/-- Names of the tools that are enabled under a given configuration. -/
def enabled_tool_names (cfg : ServerConfig) : List String :=
  ((registered_tools cfg).filter (fun t => t.enabled)).map (fun t => t.name)

/-- The columns argument of preview_table_values: absent, a single string,
or a list of strings. -/
inductive ColumnsArg
  | pynone
  | str (s : String)
  | list (cols : List String)
deriving DecidableEq, Repr

/-- Python truthiness of the columns argument, deciding the branch taken by
the statement if not columns (server.py line 176): None, the empty string
and the empty list are all falsy. -/
def ColumnsArg.truthy : ColumnsArg → Bool
  | .pynone => false
  | .str s => !(s == "")
  | .list cols => !cols.isEmpty

/-- Python repr of a string without embedded quote or backslash characters:
the value wrapped in single quotes, as used to build the column list. -/
def pyRepr (s : String) : String := "\x27" ++ s ++ "\x27"

/-- The column_query text computed by preview_table_values (server.py lines
176-181): star for a falsy argument, otherwise a lone string is first
wrapped into a one-element list and each column name is rendered with repr
and joined with commas. -/
def preview_column_query (columns : ColumnsArg) : String :=
  if columns.truthy = false then "*"
  else
    match columns with
    | .pynone => "*"
    | .str s => String.intercalate ", " ([s].map pyRepr)
    | .list cols => String.intercalate ", " (cols.map pyRepr)

/-- The SQL text generated by preview_table_values (server.py line 183). -/
def gen_preview_query (table : String) (columns : ColumnsArg) : String :=
  ("SELECT " ++ preview_column_query columns ++ " FROM " ++ table) ++ " LIMIT 1;"

/-- Embedding of the argument handling of preview_table_values (server.py
lines 170-183): an empty table name raises, otherwise the generated query
text is produced. -/
def preview_query (table : String) (columns : ColumnsArg) : Except String String :=
  if table = "" then .error "Table name cannot be empty"
  else .ok (gen_preview_query table columns)

/-- Embedding of the preview_table_values tool (server.py lines 170-185):
validate the arguments, build the query and hand it to _execute_query. -/
def preview_table_values (resultFor : String → Except String DataFrame)
    (table : String) (columns : ColumnsArg) (st : EngineState) :
    Except String String × EngineState :=
  match preview_query table columns with
  | .error e => (.error e, st)
  | .ok q => execute_query_impl resultFor q st

/-- The application context yielded by the server lifespan: the SQL context
built over the discovered sources. -/
structure AppContext where
  db : SqlCtx

/-- Embedding of server_lifespan startup (server.py lines 112-128): resolve
the NWB sources through the memoized locator, then build the SQL context
over them; a locator error propagates and no context is ever built. The
lazynwb.get_sql_context call is modelled by the build parameter. -/
def server_lifespan_startup (build : List String → SqlCtx)
    (fs : String → String → List String) (cfg : ServerConfig) (st : SourceCache) :
    Except String AppContext × SourceCache :=
  match get_nwb_sources_cached fs cfg st with
  | (.error e, st2) => (.error e, st2)
  | (.ok paths, st2) => (.ok { db := build paths }, st2)

/-- Observable lifecycle outcome of startup: either the server reaches the
ready state with a live context, or startup failed. -/
inductive ServerPhase
  | ready
  | failedStartup
deriving DecidableEq, Repr

/-- The phase reached after running startup from a given cache state. -/
def startup_phase (build : List String → SqlCtx)
    (fs : String → String → List String) (cfg : ServerConfig) (st : SourceCache) :
    ServerPhase :=
  match (server_lifespan_startup build fs cfg st).1 with
  | .ok _ => .ready
  | .error _ => .failedStartup

/-- A single-row frame whose list-of-array column is not named obs_intervals,
the shape the workaround does not cover. -/
def spike_df : DataFrame :=
  { columns := [
      { name := "spike_intervals"
        dtype := Dtype.list (Dtype.array Dtype.float64 2)
        values := [Cell.seq [Cell.seq [Cell.f 0, Cell.f 1]]] }] }

/-- The single-row frame from the spec example: column obs_intervals of
list-of-array type holding the nested value [[0.0, 1.0]]. -/
def obs_example_df : DataFrame :=
  { columns := [
      { name := "obs_intervals"
        dtype := Dtype.list (Dtype.array Dtype.float64 2)
        values := [Cell.seq [Cell.seq [Cell.f 0, Cell.f 1]]] }] }

/-- A plain one-row, one-column frame used as a concrete engine result. -/
def preview_sample_df : DataFrame :=
  { columns := [
      { name := "start_time"
        dtype := Dtype.float64
        values := [Cell.f 0] }] }

/-! Theorems. -/

/-- Claim C1: for every configuration whose root directory and glob pattern
match zero files, get_nwb_sources raises an error rather than returning an
empty list, and startup fails, so the process never reaches the ready
state. -/
theorem C1_zero_matches_startup_fails (build : List String → SqlCtx)
    (fs : String → String → List String) (cfg : ServerConfig)
    (h : fs cfg.root_dir cfg.glob_pattern = []) :
    get_nwb_sources fs cfg =
      Except.error ("No NWB files found in \x27" ++ cfg.root_dir ++
        "\x27 matching pattern \x27" ++ cfg.glob_pattern ++ "\x27")
    ∧ startup_phase build fs cfg { cached := none, scanCount := 0 } ≠ ServerPhase.ready := by
  have hsrc : get_nwb_sources fs cfg =
      Except.error ("No NWB files found in \x27" ++ cfg.root_dir ++
        "\x27 matching pattern \x27" ++ cfg.glob_pattern ++ "\x27") := by
    simp [get_nwb_sources, h]
  refine ⟨hsrc, ?_⟩
  simp [startup_phase, server_lifespan_startup, get_nwb_sources_cached, hsrc]

/-- Witness for C1 at a concrete empty filesystem and the default
configuration. -/
theorem C1_witness :
    (fun _ _ => ([] : List String)) defaultServerConfig.root_dir defaultServerConfig.glob_pattern = []
    ∧ (get_nwb_sources (fun _ _ => []) defaultServerConfig =
        Except.error ("No NWB files found in \x27" ++ defaultServerConfig.root_dir ++
          "\x27 matching pattern \x27" ++ defaultServerConfig.glob_pattern ++ "\x27")
      ∧ startup_phase (fun _ => ([] : SqlCtx)) (fun _ _ => []) defaultServerConfig
          { cached := none, scanCount := 0 } ≠ ServerPhase.ready) :=
  ⟨rfl, C1_zero_matches_startup_fails (fun _ => ([] : SqlCtx)) (fun _ _ => []) defaultServerConfig rfl⟩

/-- Claim C5: for every configuration whose root and pattern match at least
one file, source resolution is idempotent and memoized: the first call
scans and returns the glob result, and a second call returns the identical
result and state without consulting the filesystem again (the filesystem
argument of the second call is irrelevant and the scan count is unchanged). -/
theorem C5_sources_memoized (fs : String → String → List String) (cfg : ServerConfig)
    (h : fs cfg.root_dir cfg.glob_pattern ≠ []) :
    (get_nwb_sources_cached fs cfg { cached := none, scanCount := 0 }).1
      = Except.ok (fs cfg.root_dir cfg.glob_pattern)
    ∧ ∀ fs2 : String → String → List String,
        get_nwb_sources_cached fs2 cfg
            (get_nwb_sources_cached fs cfg { cached := none, scanCount := 0 }).2
          = get_nwb_sources_cached fs cfg { cached := none, scanCount := 0 } := by
  have hfirst : get_nwb_sources_cached fs cfg { cached := none, scanCount := 0 }
      = (Except.ok (fs cfg.root_dir cfg.glob_pattern),
         { cached := some (fs cfg.root_dir cfg.glob_pattern), scanCount := 1 }) := by
    simp [get_nwb_sources_cached, get_nwb_sources, List.isEmpty_iff, h]
  refine ⟨by rw [hfirst], ?_⟩
  intro fs2
  rw [hfirst]
  rfl

/-- Witness for C5 at a concrete one-file filesystem and the default
configuration; the second call uses a filesystem that now reports zero
files, showing that no re-scan happens. -/
theorem C5_witness :
    (fun _ _ => ["a.nwb"]) defaultServerConfig.root_dir defaultServerConfig.glob_pattern ≠ ([] : List String)
    ∧ ((get_nwb_sources_cached (fun _ _ => ["a.nwb"]) defaultServerConfig
          { cached := none, scanCount := 0 }).1 = Except.ok ["a.nwb"]
      ∧ get_nwb_sources_cached (fun _ _ => ([] : List String)) defaultServerConfig
            (get_nwb_sources_cached (fun _ _ => ["a.nwb"]) defaultServerConfig
              { cached := none, scanCount := 0 }).2
          = get_nwb_sources_cached (fun _ _ => ["a.nwb"]) defaultServerConfig
              { cached := none, scanCount := 0 }) :=
  ⟨by decide,
   ⟨(C5_sources_memoized (fun _ _ => ["a.nwb"]) defaultServerConfig (by decide)).1,
    (C5_sources_memoized (fun _ _ => ["a.nwb"]) defaultServerConfig (by decide)).2
      (fun _ _ => ([] : List String))⟩⟩

/-- Claim C8: for the empty SQL string, _execute_query fails with the
invalid-argument error and the engine state is unchanged: no query is ever
dispatched to the engine on this path. -/
theorem C8_empty_query_rejected_before_dispatch
    (resultFor : String → Except String DataFrame) (st : EngineState) :
    execute_query_impl resultFor "" st = (Except.error "SQL query cannot be empty", st) := by
  rfl

/-- Claim C4: for every non-empty SQL query whose execution returns an empty
frame, _execute_query returns the literal text for the empty JSON array,
never an error, after dispatching exactly that query to the engine. -/
theorem C4_empty_result_returns_empty_array
    (resultFor : String → Except String DataFrame) (query : String)
    (st : EngineState) (df : DataFrame)
    (h1 : query ≠ "") (h2 : resultFor query = Except.ok df) (h3 : df.height = 0) :
    execute_query_impl resultFor query st =
      (Except.ok "[]", { dispatched := st.dispatched ++ [query] }) := by
  simp [execute_query_impl, h1, h2, h3]

/-- Witness for C4: a concrete engine returning a zero-column frame for a
concrete query. -/
theorem C4_witness :
    execute_query_impl (fun _ => Except.ok { columns := [] }) "SELECT id FROM trials"
        { dispatched := [] }
      = (Except.ok "[]", { dispatched := ["SELECT id FROM trials"] }) :=
  C4_empty_result_returns_empty_array (fun _ => Except.ok { columns := [] })
    "SELECT id FROM trials" { dispatched := [] } { columns := [] }
    (by decide) rfl rfl

/-- Claim C7: the raw-SQL execute_query tool is enabled exactly when the
no_code flag is set (and that flag defaults to false, so the tool is
disabled by default), while every other registered tool is enabled under
every configuration. -/
theorem C7_execute_query_gated_on_no_code (cfg : ServerConfig) :
    enabled_tool_names cfg =
      (if cfg.no_code then
        ["get_tables", "get_table_schema", "execute_query", "preview_table_values"]
      else ["get_tables", "get_table_schema", "preview_table_values"])
    ∧ defaultServerConfig.no_code = false := by
  refine ⟨?_, rfl⟩
  cases hnc : cfg.no_code <;> simp [enabled_tool_names, registered_tools, hnc]

/-- Claim C9, counterexample: settings loading accepts a negative
schema-inference sample size, because the field is a plain integer with no
positivity constraint; loading with the value -5 succeeds instead of
failing. -/
theorem C9_counterexample :
    server_config_from "data" "**/*.nwb" [] (PyValue.int (-5)) false false
      = Except.ok { root_dir := "data", glob_pattern := "**/*.nwb", tables := [], infer_schema_length := -5, no_code := false, unattended := false } := by
  rfl

/-- Claim C9 as amended: settings loading fails fast only on values that are
structurally invalid for the declared type: any integer, negative ones
included, is accepted for the schema-inference sample size, while a
non-numeric value is rejected with a validation error. -/
theorem C9_amended_int_only_validation (n : Int) (r g : String) (tb : List String)
    (nc ua : Bool) :
    server_config_from r g tb (PyValue.int n) nc ua
      = Except.ok { root_dir := r, glob_pattern := g, tables := tb, infer_schema_length := n, no_code := nc, unattended := ua }
    ∧ server_config_from r g tb PyValue.pynone nc ua
      = Except.error "Input should be a valid integer" := by
  exact ⟨rfl, rfl⟩

/-- Claim C3: get_table_schema fails when the table name is empty, for every
state of the SQL context; it fails when the name is unknown to the context;
and for every known non-empty name it returns the mapping from column names
to declared types. -/
theorem C3_get_table_schema_validation (ctx : SqlCtx) (nm : String) :
    (nm = "" → get_table_schema ctx nm = Except.error "Table name cannot be empty")
    ∧ (nm ≠ "" → lookupTable ctx nm = none →
        get_table_schema ctx nm =
          Except.error ("SQLInterfaceError: relation \x27" ++ nm ++ "\x27 was not found"))
    ∧ (∀ sch, nm ≠ "" → lookupTable ctx nm = some sch →
        get_table_schema ctx nm = Except.ok sch) := by
  refine ⟨?_, ?_, ?_⟩
  · intro h; simp [get_table_schema, h]
  · intro h hl; simp [get_table_schema, engine_schema_query, h, hl]
  · intro sch h hl; simp [get_table_schema, engine_schema_query, h, hl]

/-- Witness for C3 on a one-table context: the empty name fails, the known
name returns its schema, the unknown name fails. -/
theorem C3_witness :
    get_table_schema [("trials", [("start_time", Dtype.float64)])] ""
        = Except.error "Table name cannot be empty"
    ∧ get_table_schema [("trials", [("start_time", Dtype.float64)])] "trials"
        = Except.ok [("start_time", Dtype.float64)]
    ∧ get_table_schema [("trials", [("start_time", Dtype.float64)])] "bogus"
        = Except.error ("SQLInterfaceError: relation \x27bogus\x27 was not found") :=
  ⟨(C3_get_table_schema_validation [("trials", [("start_time", Dtype.float64)])] "").1 rfl,
   (C3_get_table_schema_validation [("trials", [("start_time", Dtype.float64)])] "trials").2.2
     [("start_time", Dtype.float64)] (by decide) (by decide),
   (C3_get_table_schema_validation [("trials", [("start_time", Dtype.float64)])] "bogus").2.1
     (by decide) (by decide)⟩

/-- Claim C10, counterexample: with the empty string as the columns argument,
preview_table_values does not treat it as a one-element column list: the
falsy check fires first and the generated query selects every column, not
the single empty-named column. -/
theorem C10_counterexample :
    preview_query "trials" (ColumnsArg.str "") = Except.ok "SELECT * FROM trials LIMIT 1;"
    ∧ "SELECT * FROM trials LIMIT 1;"
        ≠ "SELECT " ++ pyRepr "" ++ " FROM trials" ++ " LIMIT 1;" := by
  exact ⟨rfl, by decide⟩

/-- Claim C10 as amended: for every non-empty single string s, the columns
argument is treated as the one-element column list [s]: the generated query
is identical to the one for the explicit list, and, concretely, a
two-character string does not generate one column per character. -/
theorem C10_amended_nonempty_string_single_column (table : String) (s : String)
    (h : s ≠ "") :
    preview_query table (ColumnsArg.str s) = preview_query table (ColumnsArg.list [s])
    ∧ preview_query "trials" (ColumnsArg.str "ab")
        ≠ preview_query "trials" (ColumnsArg.list ["a", "b"]) := by
  have hb : (s == "") = false := by simp [h]
  refine ⟨?_, by decide⟩
  simp [preview_query, gen_preview_query, preview_column_query, ColumnsArg.truthy, hb]

/-- Witness for C10 at the concrete column name start_time. -/
theorem C10_amended_witness :
    (preview_query "trials" (ColumnsArg.str "start_time")
       = preview_query "trials" (ColumnsArg.list ["start_time"]))
    ∧ preview_query "trials" (ColumnsArg.str "ab")
       ≠ preview_query "trials" (ColumnsArg.list ["a", "b"]) :=
  C10_amended_nonempty_string_single_column "trials" "start_time" (by decide)

/-- Claim C2, counterexample: a single-row table whose list-of-array column
is named spike_intervals rather than obs_intervals is not normalized at all
by the workaround, and serializing it through the _execute_query path
raises instead of producing JSON. -/
theorem C2_counterexample :
    fix_obs_intervals spike_df = Except.ok spike_df
    ∧ (execute_query_impl (fun _ => Except.ok spike_df)
          "SELECT spike_intervals FROM units" { dispatched := [] }).1
        = Except.error "ComputeError: cannot serialize a list of array values to JSON" := by
  exact ⟨rfl, rfl⟩

/-- Claim C2 as amended: the normalization covers only the column literally
named obs_intervals, and the cast it performs is itself fallible; for every
result table whose list-of-array columns are all named obs_intervals and
whose obs_intervals columns have a dtype castable to List(List(Float64)),
serialization never raises, and in particular the single-row obs_intervals
example round-trips to JSON text containing the nested array [[0.0,1.0]]. -/
theorem C2_amended_obs_intervals_only (df : DataFrame)
    (h1 : ∀ c ∈ df.columns, c.dtype.hasListOfArray = true → c.name = "obs_intervals")
    (h2 : ∀ c ∈ df.columns, c.name = "obs_intervals" → c.dtype.castableToListListFloat64 = true) :
    (∃ out, serialize_result df = Except.ok out)
    ∧ serialize_result obs_example_df
        = Except.ok "[\x7b\"obs_intervals\":[[0.0,1.0]]\x7d]" := by
  have hfix : ∃ df2, fix_obs_intervals df = Except.ok df2
      ∧ ∀ c ∈ df2.columns, c.dtype.hasListOfArray = false := by
    unfold fix_obs_intervals
    by_cases hmem : (df.columns.map Column.name).contains "obs_intervals"
    · rw [if_pos hmem]
      have hall : df.columns.all
          (fun c => (c.name != "obs_intervals") || c.dtype.castableToListListFloat64) = true := by
        rw [List.all_eq_true]
        intro c hc
        by_cases hname : c.name = "obs_intervals"
        · simp [hname, h2 c hc hname]
        · simp [hname]
      rw [if_pos hall]
      refine ⟨_, rfl, ?_⟩
      intro c hc
      simp only [List.mem_map] at hc
      obtain ⟨c0, hc0, rfl⟩ := hc
      by_cases hname : c0.name = "obs_intervals"
      · rw [if_pos hname]
        rfl
      · rw [if_neg hname]
        cases hla : c0.dtype.hasListOfArray
        · rfl
        · exact absurd (h1 c0 hc0 hla) hname
    · rw [if_neg hmem]
      refine ⟨df, rfl, ?_⟩
      intro c hc
      cases hla : c.dtype.hasListOfArray
      · rfl
      · exfalso
        apply hmem
        have hmm : "obs_intervals" ∈ df.columns.map Column.name := by
          rw [← h1 c hc hla]
          exact List.mem_map_of_mem Column.name hc
        simpa using hmm
  obtain ⟨df2, hfixeq, hnola⟩ := hfix
  have hany : (df2.columns.any (fun c => c.dtype.hasListOfArray)) = false := by
    rw [List.any_eq_false]
    intro c hc
    simp [hnola c hc]
  refine ⟨⟨df2.renderRows, ?_⟩, by decide⟩
  unfold serialize_result
  rw [hfixeq]
  simp [DataFrame.writeJson, hany]

/-- Witness for C2 at the obs_intervals example frame from the spec. -/
theorem C2_amended_witness :
    (∀ c ∈ obs_example_df.columns, c.dtype.hasListOfArray = true → c.name = "obs_intervals")
    ∧ (∀ c ∈ obs_example_df.columns, c.name = "obs_intervals" →
        c.dtype.castableToListListFloat64 = true)
    ∧ ((∃ out, serialize_result obs_example_df = Except.ok out)
       ∧ serialize_result obs_example_df
           = Except.ok "[\x7b\"obs_intervals\":[[0.0,1.0]]\x7d]") :=
  ⟨by decide, by decide, C2_amended_obs_intervals_only obs_example_df (by decide) (by decide)⟩

/-- A string with the trailing LIMIT clause appended is never empty. -/
theorem append_limit_clause_ne_empty (p : String) : p ++ " LIMIT 1;" ≠ "" := by
  intro hc
  have hlen := congrArg String.length hc
  rw [String.length_append] at hlen
  have h9 : (" LIMIT 1;" : String).length = 9 := rfl
  have h0 : ("" : String).length = 0 := rfl
  omega

/-- Claim C6: for every non-empty table name and columns argument, against
an engine that honours a trailing LIMIT 1 clause by returning at most one
row, preview_table_values serializes a frame of at most 5 rows: the result
is either the empty-array text or the JSON of the fetched frame, whose
height is at most 5. -/
theorem C6_preview_at_most_five_rows
    (resultFor : String → Except String DataFrame) (table : String)
    (columns : ColumnsArg) (st : EngineState) (df : DataFrame)
    (hL : ∀ q df2, (∃ p, q = p ++ " LIMIT 1;") → resultFor q = Except.ok df2 → df2.height ≤ 1)
    (ht : table ≠ "")
    (hq : resultFor (gen_preview_query table columns) = Except.ok df) :
    df.height ≤ 5
    ∧ ((preview_table_values resultFor table columns st).1 = Except.ok "[]"
       ∨ (preview_table_values resultFor table columns st).1 = serialize_result df) := by
  have h1 : df.height ≤ 1 :=
    hL (gen_preview_query table columns) df
      ⟨"SELECT " ++ preview_column_query columns ++ " FROM " ++ table, rfl⟩ hq
  have hne : gen_preview_query table columns ≠ "" :=
    append_limit_clause_ne_empty ("SELECT " ++ preview_column_query columns ++ " FROM " ++ table)
  refine ⟨le_trans h1 (by omega), ?_⟩
  rcases hdf0 : df.height with _ | k
  · left
    simp [preview_table_values, preview_query, execute_query_impl, ht, hne, hq, hdf0]
  · right
    simp [preview_table_values, preview_query, execute_query_impl, ht, hne, hq, hdf0]

/-- Witness for C6: a concrete engine that always returns the one-row
sample frame. -/
theorem C6_witness :
    preview_sample_df.height ≤ 5
    ∧ ((preview_table_values (fun _ => Except.ok preview_sample_df) "trials"
          (ColumnsArg.list ["start_time"]) { dispatched := [] }).1 = Except.ok "[]"
       ∨ (preview_table_values (fun _ => Except.ok preview_sample_df) "trials"
            (ColumnsArg.list ["start_time"]) { dispatched := [] }).1
          = serialize_result preview_sample_df) :=
  C6_preview_at_most_five_rows (fun _ => Except.ok preview_sample_df) "trials"
    (ColumnsArg.list ["start_time"]) { dispatched := [] } preview_sample_df
    (by
      intro q df2 hsuffix hok
      have hok2 : Except.ok preview_sample_df = Except.ok df2 := hok
      injection hok2 with hdf
      rw [← hdf]
      decide)
    (by decide) rfl

end NwbMcp
